import Mathlib

/-!
Verification development for the `tangem-sdk-react-native` type declarations
(`src/types.ts`).  The repository consists solely of TypeScript type
declarations: enums, interfaces (value records) and the `TangemSdk` method
interface.  We embed these declarations at two levels:

* a value-level embedding: each TypeScript interface becomes a Lean
  structure (optional fields become `Option`, the TypeScript one-element
  tuple type `[T]` becomes `Tuple1 T`);
* a declaration-level embedding: a small grammar `TSType` of the
  TypeScript type expressions occurring in the file, together with tables
  (`interfaceFields`, `opParams`, `opReturn`) listing, for every interface
  and every `TangemSdk` method, exactly the fields / parameters / return
  type written in the source.

Operation behaviour is not present in the repository (the implementation
lives in a native SDK); where a claim concerns behaviour we model the
missing operation from the specification text, in definitions whose doc
comments start with `Modelled from the spec:`.
-/

namespace Tangem

/-- Elliptic curve used for wallet key operations (enum `EllipticCurve`). -/
inductive EllipticCurve where
  | Secp256k1
  | Ed25519
  | Secp256r1
  deriving DecidableEq, Repr

/-- Raw string value of each `EllipticCurve` member, as written in the source. -/
def EllipticCurve.val : EllipticCurve → String
  | .Secp256k1 => "secp256k1"
  | .Ed25519 => "ed25519"
  | .Secp256r1 => "secp256r1"

/-- Enum `SigningMethod`. -/
inductive SigningMethod where
  | SignHash
  | SignRaw
  | SignHashSignedByIssuer
  | SignRawSignedByIssuer
  | SignHashSignedByIssuerAndUpdateIssuerData
  | SignRawSignedByIssuerAndUpdateIssuerData
  | SignPos
  deriving DecidableEq, Repr

/-- Enum `EncryptionMode`. -/
inductive EncryptionMode where
  | None
  | Fast
  | Strong
  deriving DecidableEq, Repr

/-- Enum `FirmwareType`. -/
inductive FirmwareType where
  | Sdk
  | Release
  | Special
  deriving DecidableEq, Repr

/-- Enum `FileSettings` (numeric enum: Private = 0, Public = 1). -/
inductive FileSettings where
  | Private
  | Public
  deriving DecidableEq, Repr

/-- Numeric value of each `FileSettings` member. -/
def FileSettings.val : FileSettings → Nat
  | .Private => 0
  | .Public => 1

/-- Enum `FileValidation`. -/
inductive FileValidation where
  | NotValidated
  | Valid
  | Corrupted
  deriving DecidableEq, Repr

/-- Enum `Status` (attestation statuses). -/
inductive Status where
  | Failed
  | Warning
  | Skipped
  | VerifiedOffline
  | Verified
  deriving DecidableEq, Repr

/-- Enum `LinkedTerminalStatus`. -/
inductive LinkedTerminalStatus where
  | Current
  | Other
  | None
  deriving DecidableEq, Repr

/-- Type alias `type Data = string`. -/
abbrev Data := String

/-- Type alias `type DerivationPath = string`. -/
abbrev DerivationPath := String

/-- Embedding of the TypeScript/JavaScript `Date` object (a timestamp). -/
structure Date where
  ms : Int
  deriving DecidableEq, Repr

/-- The TypeScript one-element tuple type `[T]`: a value holds exactly one
element.  `Card.supportedCurves`, `Settings.supportedEncryptionModes` and
the resolved value of `sign` are declared with this shape in the source. -/
structure Tuple1 (α : Type) where
  fst : α
  deriving DecidableEq, Repr

/-- The elements of a one-element tuple, as a list (always a singleton). -/
def Tuple1.toList {α : Type} (t : Tuple1 α) : List α := [t.fst]

/-- Interface `FirmwareVersion`. -/
structure FirmwareVersion where
  hotFix : Nat
  major : Nat
  minor : Nat
  type : FirmwareType
  version : String
  deriving DecidableEq, Repr

/-- Interface `WalletSettings`. -/
structure WalletSettings where
  isPermanent : Bool
  deriving DecidableEq, Repr

/-- Interface `Wallet`. -/
structure Wallet where
  publicKey : Data
  chainCode : Option Data
  curve : EllipticCurve
  settings : WalletSettings
  totalSignedHashes : Option Nat
  remainingSignatures : Option Nat
  index : Nat
  deriving DecidableEq, Repr

/-- Interface `Manufacturer`. -/
structure Manufacturer where
  name : String
  manufactureDate : Date
  signature : Option Data
  deriving DecidableEq, Repr

/-- Interface `Issuer`. -/
structure Issuer where
  name : String
  publicKey : Data
  deriving DecidableEq, Repr

/-- Interface `Settings`. -/
structure Settings where
  securityDelay : Nat
  maxWalletsCount : Nat
  isSettingAccessCodeAllowed : Bool
  isSettingPasscodeAllowed : Bool
  isRemovingAccessCodeAllowed : Bool
  isLinkedTerminalEnabled : Bool
  supportedEncryptionModes : Tuple1 EncryptionMode
  isPermanentWallet : Bool
  isOverwritingIssuerExtraDataRestricted : Bool
  defaultSigningMethods : Option SigningMethod
  defaultCurve : Option EllipticCurve
  isIssuerDataProtectedAgainstReplay : Bool
  isSelectBlockchainAllowed : Bool
  deriving DecidableEq, Repr

/-- Interface `Attestation`. -/
structure Attestation where
  cardKeyAttestation : Status
  walletKeysAttestation : Status
  firmwareAttestation : Status
  cardUniquenessAttestation : Status
  deriving DecidableEq, Repr

/-- Interface `Card`. -/
structure Card where
  cardId : String
  batchId : String
  cardPublicKey : Data
  firmwareVersion : FirmwareVersion
  manufacturer : Manufacturer
  issuer : Issuer
  settings : Settings
  linkedTerminalStatus : LinkedTerminalStatus
  isPasscodeSet : Option Bool
  supportedCurves : Tuple1 EllipticCurve
  wallets : Option (List Wallet)
  attestation : Attestation
  health : Option Nat
  remainingSignatures : Option Nat
  deriving DecidableEq, Repr

/-- Type `NFCStatusResponse`. -/
structure NFCStatusResponse where
  enabled : Bool
  support : Bool
  deriving DecidableEq, Repr

/-- Type `Events`: the single event kind. -/
inductive Events where
  | NFCStateChange
  deriving DecidableEq, Repr

/-- Type `EventCallback`. -/
structure EventCallback where
  enabled : Bool
  deriving DecidableEq, Repr

/-- Interface `Message`. -/
structure Message where
  body : Option String
  header : Option String
  deriving DecidableEq, Repr

/-- Interface `ReadIssuerDataResponse`. -/
structure ReadIssuerDataResponse where
  cardId : String
  userData : Data
  userProtectedData : Data
  userCounter : Nat
  userProtectedCounter : Nat
  deriving DecidableEq, Repr

/-- Interface `WriteIssuerDataResponse`. -/
structure WriteIssuerDataResponse where
  cardId : String
  deriving DecidableEq, Repr

/-- Interface `WriteIssuerExtraDataResponse`. -/
structure WriteIssuerExtraDataResponse where
  cardId : String
  deriving DecidableEq, Repr

/-- Interface `WriteUserDataResponse`. -/
structure WriteUserDataResponse where
  cardId : String
  deriving DecidableEq, Repr

/-- Interface `WriteUserProtectedDataResponse`. -/
structure WriteUserProtectedDataResponse where
  cardId : String
  deriving DecidableEq, Repr

/-- Interface `ReadIssuerExtraDataResponse`. -/
structure ReadIssuerExtraDataResponse where
  cardId : String
  size : Option Nat
  issuerData : Option Data
  deriving DecidableEq, Repr

/-- Interface `ReadUserDataResponse`. -/
structure ReadUserDataResponse where
  cardId : String
  userData : Data
  userProtectedData : Data
  userCounter : Nat
  userProtectedCounter : Nat
  deriving DecidableEq, Repr

/-- Interface `CreateWalletResponse`. -/
structure CreateWalletResponse where
  cardId : String
  wallet : Wallet
  deriving DecidableEq, Repr

/-- Interface `SuccessResponse`. -/
structure SuccessResponse where
  cardId : String
  deriving DecidableEq, Repr

/-- Interface `WalletConfig`.  The source names its curve field
`EllipticCurve`, after the enum. -/
structure WalletConfig where
  isReusable : Option Bool
  prohibitPurgeWallet : Option Bool
  EllipticCurve : Option EllipticCurve
  signingMethods : Option SigningMethod
  deriving DecidableEq, Repr

/-- Interface `FileSettingsChange`. -/
structure FileSettingsChange where
  fileIndex : Nat
  settings : FileSettings
  deriving DecidableEq, Repr

/-- Interface `File`. -/
structure File where
  data : Data
  startingSignature : Option Data
  finalizingSignature : Option Data
  counter : Option Nat
  issuerPublicKey : Option Data
  requiredPasscode : Option Bool
  minFirmwareVersion : Option FirmwareVersion
  maxFirmwareVersion : Option FirmwareVersion
  deriving DecidableEq, Repr

/-- Type `ReadFilesResponse` (note: its only field is `files`). -/
structure ReadFilesResponse where
  files : List File
  deriving DecidableEq, Repr

/-- Interface `WriteFilesResponse`. -/
structure WriteFilesResponse where
  cardId : String
  fileIndex : Option Nat
  deriving DecidableEq, Repr

/-- Interface `DeleteFilesResponse`. -/
structure DeleteFilesResponse where
  cardId : String
  deriving DecidableEq, Repr

/-- Interface `ChangeFilesSettingsResponse`. -/
structure ChangeFilesSettingsResponse where
  cardId : String
  deriving DecidableEq, Repr

/-!
Declaration-level embedding: the grammar of the TypeScript type
expressions that occur in `src/types.ts`, and tables reproducing the
declared fields of every interface and the declared signature of every
`TangemSdk` method.
-/

/-- TypeScript type expressions occurring in the source file. -/
inductive TSType where
  /-- `string` / `String` -/
  | str
  /-- `number` / `Number` -/
  | num
  /-- `boolean` / `Boolean` -/
  | bool
  /-- `void` -/
  | void
  /-- the alias `Data` -/
  | data
  /-- the alias `DerivationPath` -/
  | derivationPath
  /-- `Date` -/
  | date
  /-- a reference to a named interface or enum -/
  | named (n : String)
  /-- the array type `T[]` -/
  | arr (t : TSType)
  /-- the one-element tuple type `[T]` -/
  | tuple1 (t : TSType)
  /-- a function type (event handlers) -/
  | func
  deriving DecidableEq, Repr

/-- Whether a TypeScript type expression is an array type `T[]`. -/
def TSType.isArr : TSType → Bool
  | .arr _ => true
  | _ => false

/-- A declared field of an interface, or a declared parameter of a method:
its name, its type, and whether it is marked optional (`?`). -/
structure TSField where
  name : String
  ty : TSType
  optional : Bool
  deriving DecidableEq, Repr

/-- The declared fields of each named interface / type literal of the
source file, in source order. -/
def interfaceFields : String → Option (List TSField)
  | "FirmwareVersion" => some
      [⟨"hotFix", .num, false⟩, ⟨"major", .num, false⟩, ⟨"minor", .num, false⟩,
       ⟨"type", .named "FirmwareType", false⟩, ⟨"version", .str, false⟩]
  | "WalletSettings" => some [⟨"isPermanent", .bool, false⟩]
  | "Wallet" => some
      [⟨"publicKey", .data, false⟩, ⟨"chainCode", .data, true⟩,
       ⟨"curve", .named "EllipticCurve", false⟩,
       ⟨"settings", .named "WalletSettings", false⟩,
       ⟨"totalSignedHashes", .num, true⟩, ⟨"remainingSignatures", .num, true⟩,
       ⟨"index", .num, false⟩]
  | "Manufacturer" => some
      [⟨"name", .str, false⟩, ⟨"manufactureDate", .date, false⟩,
       ⟨"signature", .data, true⟩]
  | "Issuer" => some [⟨"name", .str, false⟩, ⟨"publicKey", .data, false⟩]
  | "Settings" => some
      [⟨"securityDelay", .num, false⟩, ⟨"maxWalletsCount", .num, false⟩,
       ⟨"isSettingAccessCodeAllowed", .bool, false⟩,
       ⟨"isSettingPasscodeAllowed", .bool, false⟩,
       ⟨"isRemovingAccessCodeAllowed", .bool, false⟩,
       ⟨"isLinkedTerminalEnabled", .bool, false⟩,
       ⟨"supportedEncryptionModes", .tuple1 (.named "EncryptionMode"), false⟩,
       ⟨"isPermanentWallet", .bool, false⟩,
       ⟨"isOverwritingIssuerExtraDataRestricted", .bool, false⟩,
       ⟨"defaultSigningMethods", .named "SigningMethod", true⟩,
       ⟨"defaultCurve", .named "EllipticCurve", true⟩,
       ⟨"isIssuerDataProtectedAgainstReplay", .bool, false⟩,
       ⟨"isSelectBlockchainAllowed", .bool, false⟩]
  | "Attestation" => some
      [⟨"cardKeyAttestation", .named "Status", false⟩,
       ⟨"walletKeysAttestation", .named "Status", false⟩,
       ⟨"firmwareAttestation", .named "Status", false⟩,
       ⟨"cardUniquenessAttestation", .named "Status", false⟩]
  | "Card" => some
      [⟨"cardId", .str, false⟩, ⟨"batchId", .str, false⟩,
       ⟨"cardPublicKey", .data, false⟩,
       ⟨"firmwareVersion", .named "FirmwareVersion", false⟩,
       ⟨"manufacturer", .named "Manufacturer", false⟩,
       ⟨"issuer", .named "Issuer", false⟩,
       ⟨"settings", .named "Settings", false⟩,
       ⟨"linkedTerminalStatus", .named "LinkedTerminalStatus", false⟩,
       ⟨"isPasscodeSet", .bool, true⟩,
       ⟨"supportedCurves", .tuple1 (.named "EllipticCurve"), false⟩,
       ⟨"wallets", .arr (.named "Wallet"), true⟩,
       ⟨"attestation", .named "Attestation", false⟩,
       ⟨"health", .num, true⟩, ⟨"remainingSignatures", .num, true⟩]
  | "NFCStatusResponse" => some
      [⟨"enabled", .bool, false⟩, ⟨"support", .bool, false⟩]
  | "EventCallback" => some [⟨"enabled", .bool, false⟩]
  | "Message" => some [⟨"body", .str, true⟩, ⟨"header", .str, true⟩]
  | "ReadIssuerDataResponse" => some
      [⟨"cardId", .str, false⟩, ⟨"userData", .data, false⟩,
       ⟨"userProtectedData", .data, false⟩, ⟨"userCounter", .num, false⟩,
       ⟨"userProtectedCounter", .num, false⟩]
  | "WriteIssuerDataResponse" => some [⟨"cardId", .str, false⟩]
  | "WriteIssuerExtraDataResponse" => some [⟨"cardId", .str, false⟩]
  | "WriteUserDataResponse" => some [⟨"cardId", .str, false⟩]
  | "WriteUserProtectedDataResponse" => some [⟨"cardId", .str, false⟩]
  | "ReadIssuerExtraDataResponse" => some
      [⟨"cardId", .str, false⟩, ⟨"size", .num, true⟩, ⟨"issuerData", .data, true⟩]
  | "ReadUserDataResponse" => some
      [⟨"cardId", .str, false⟩, ⟨"userData", .data, false⟩,
       ⟨"userProtectedData", .data, false⟩, ⟨"userCounter", .num, false⟩,
       ⟨"userProtectedCounter", .num, false⟩]
  | "CreateWalletResponse" => some
      [⟨"cardId", .str, false⟩, ⟨"wallet", .named "Wallet", false⟩]
  | "SuccessResponse" => some [⟨"cardId", .str, false⟩]
  | "WalletConfig" => some
      [⟨"isReusable", .bool, true⟩, ⟨"prohibitPurgeWallet", .bool, true⟩,
       ⟨"EllipticCurve", .named "EllipticCurve", true⟩,
       ⟨"signingMethods", .named "SigningMethod", true⟩]
  | "FileSettingsChange" => some
      [⟨"fileIndex", .num, false⟩, ⟨"settings", .named "FileSettings", false⟩]
  | "File" => some
      [⟨"data", .data, false⟩, ⟨"startingSignature", .data, true⟩,
       ⟨"finalizingSignature", .data, true⟩, ⟨"counter", .num, true⟩,
       ⟨"issuerPublicKey", .data, true⟩, ⟨"requiredPasscode", .bool, true⟩,
       ⟨"minFirmwareVersion", .named "FirmwareVersion", true⟩,
       ⟨"maxFirmwareVersion", .named "FirmwareVersion", true⟩]
  | "ReadFilesResponse" => some [⟨"files", .arr (.named "File"), false⟩]
  | "WriteFilesResponse" => some
      [⟨"cardId", .str, false⟩, ⟨"fileIndex", .num, true⟩]
  | "DeleteFilesResponse" => some [⟨"cardId", .str, false⟩]
  | "ChangeFilesSettingsResponse" => some [⟨"cardId", .str, false⟩]
  | _ => none

/-- The declared field (if any) of interface `iface` named `fname`. -/
def fieldOf (iface fname : String) : Option TSField :=
  (interfaceFields iface).bind (fun fs => fs.find? (fun f => f.name == fname))

/-- The methods of the `TangemSdk` interface. -/
inductive SdkOp where
  | scanCard
  | sign
  | readIssuerData
  | writeIssuerData
  | readIssuerExtraData
  | writeIssuerExtraData
  | readUserData
  | writeUserData
  | writeUserProtectedData
  | createWallet
  | purgeWallet
  | setAccessCode
  | setPasscode
  | readFiles
  | writeFiles
  | deleteFiles
  | changeFilesSettings
  | startSession
  | stopSession
  | getNFCStatus
  | on
  | removeListener
  deriving DecidableEq, Repr

/-- The declared return shape of a `TangemSdk` method: either a
`Promise<T>` (asynchronous) or a plain type (synchronous). -/
inductive TSReturn where
  | promise (t : TSType)
  | sync (t : TSType)
  deriving DecidableEq, Repr

/-- Whether the declared return is `Promise`-wrapped (asynchronous). -/
def TSReturn.isPromise : TSReturn → Bool
  | .promise _ => true
  | .sync _ => false

/-- The declared parameter list of each `TangemSdk` method, in source
order. -/
def opParams : SdkOp → List TSField
  | .scanCard => [⟨"initialMessage", .named "Message", true⟩]
  | .sign =>
      [⟨"hashes", .arr .data, false⟩, ⟨"walletPublicKey", .data, false⟩,
       ⟨"cardId", .str, false⟩, ⟨"hdPath", .derivationPath, true⟩,
       ⟨"initialMessage", .named "Message", true⟩]
  | .readIssuerData =>
      [⟨"cardId", .str, true⟩, ⟨"initialMessage", .named "Message", true⟩]
  | .writeIssuerData =>
      [⟨"issuerData", .data, false⟩, ⟨"issuerDataSignature", .data, false⟩,
       ⟨"issuerDataCounter", .num, true⟩, ⟨"cardId", .str, true⟩,
       ⟨"initialMessage", .named "Message", true⟩]
  | .readIssuerExtraData =>
      [⟨"cardId", .str, true⟩, ⟨"initialMessage", .named "Message", true⟩]
  | .writeIssuerExtraData =>
      [⟨"issuerData", .data, false⟩, ⟨"startingSignature", .data, false⟩,
       ⟨"finalizingSignature", .data, false⟩, ⟨"issuerDataCounter", .num, true⟩,
       ⟨"cardId", .str, true⟩, ⟨"initialMessage", .named "Message", true⟩]
  | .readUserData =>
      [⟨"cardId", .str, true⟩, ⟨"initialMessage", .named "Message", true⟩]
  | .writeUserData =>
      [⟨"userData", .data, false⟩, ⟨"userCounter", .num, false⟩,
       ⟨"cardId", .str, true⟩, ⟨"initialMessage", .named "Message", true⟩]
  | .writeUserProtectedData =>
      [⟨"userProtectedData", .data, false⟩, ⟨"userProtectedCounter", .data, false⟩,
       ⟨"cardId", .str, true⟩, ⟨"initialMessage", .named "Message", true⟩]
  | .createWallet =>
      [⟨"curve", .named "EllipticCurve", false⟩, ⟨"isPermanent", .bool, false⟩,
       ⟨"cardId", .str, false⟩, ⟨"initialMessage", .named "Message", true⟩]
  | .purgeWallet =>
      [⟨"walletPublicKey", .data, false⟩, ⟨"cardId", .str, false⟩,
       ⟨"initialMessage", .named "Message", true⟩]
  | .setAccessCode =>
      [⟨"accessCode", .str, false⟩, ⟨"cardId", .str, false⟩,
       ⟨"initialMessage", .named "Message", true⟩]
  | .setPasscode =>
      [⟨"passcode", .str, false⟩, ⟨"cardId", .str, false⟩,
       ⟨"initialMessage", .named "Message", true⟩]
  | .readFiles =>
      [⟨"readPrivateFiles", .bool, false⟩, ⟨"indices", .arr .num, true⟩,
       ⟨"cardId", .str, true⟩, ⟨"initialMessage", .named "Message", true⟩]
  | .writeFiles =>
      [⟨"files", .arr (.named "File"), false⟩, ⟨"cardId", .str, true⟩,
       ⟨"initialMessage", .named "Message", true⟩]
  | .deleteFiles =>
      [⟨"indicesToDelete", .arr .num, true⟩, ⟨"cardId", .str, true⟩,
       ⟨"initialMessage", .named "Message", true⟩]
  | .changeFilesSettings =>
      [⟨"changes", .named "FileSettingsChange", false⟩, ⟨"cardId", .str, true⟩,
       ⟨"initialMessage", .named "Message", true⟩]
  | .startSession => []
  | .stopSession => []
  | .getNFCStatus => []
  | .on => [⟨"eventName", .named "Events", false⟩, ⟨"handler", .func, false⟩]
  | .removeListener =>
      [⟨"eventName", .named "Events", false⟩, ⟨"handler", .func, false⟩]

/-- The declared return type of each `TangemSdk` method. -/
def opReturn : SdkOp → TSReturn
  | .scanCard => .promise (.named "Card")
  | .sign => .promise (.tuple1 .data)
  | .readIssuerData => .promise (.named "ReadIssuerDataResponse")
  | .writeIssuerData => .promise (.named "WriteIssuerDataResponse")
  | .readIssuerExtraData => .promise (.named "ReadIssuerExtraDataResponse")
  | .writeIssuerExtraData => .promise (.named "WriteIssuerExtraDataResponse")
  | .readUserData => .promise (.named "ReadUserDataResponse")
  | .writeUserData => .promise (.named "WriteUserDataResponse")
  | .writeUserProtectedData => .promise (.named "WriteUserProtectedDataResponse")
  | .createWallet => .promise (.named "CreateWalletResponse")
  | .purgeWallet => .promise (.named "SuccessResponse")
  | .setAccessCode => .promise (.named "SuccessResponse")
  | .setPasscode => .promise (.named "SuccessResponse")
  | .readFiles => .promise (.named "ReadFilesResponse")
  | .writeFiles => .promise (.named "WriteFilesResponse")
  | .deleteFiles => .promise (.named "DeleteFilesResponse")
  | .changeFilesSettings => .promise (.named "ChangeFilesSettingsResponse")
  | .startSession => .promise .void
  | .stopSession => .promise .void
  | .getNFCStatus => .promise (.named "NFCStatusResponse")
  | .on => .sync .void
  | .removeListener => .sync .void

/-- The declared response record of a method: the field list of the named
interface its `Promise` resolves to, when that resolved type is a record. -/
def responseRecord (op : SdkOp) : Option (List TSField) :=
  match opReturn op with
  | .promise (.named n) => interfaceFields n
  | _ => none

/-- `true` when the method either has no response record, or its response
record declares a `cardId` field. -/
def recordHasCardId (op : SdkOp) : Bool :=
  match responseRecord op with
  | some fs => fs.any (fun f => f.name == "cardId")
  | none => true

/-!
Behavioural model.  The repository declares only signatures; the
behaviour of the operations lives in the native SDK and on the card.
The definitions below therefore model, from the specification text, the
card-state transitions the declarations describe.
-/

/-- The wallets of a card as a plain list (`wallets` is optional). -/
def Card.walletsList (c : Card) : List Wallet := c.wallets.getD []

/-- The supported curves of a card as a list (the declaration is the
one-element tuple `[EllipticCurve]`). -/
def Card.supportedCurvesList (c : Card) : List EllipticCurve :=
  c.supportedCurves.toList

/-- Error kinds used by the modelled operations. -/
inductive SdkError where
  | curveNotSupported
  | walletSlotsExhausted
  | walletNotFound
  | purgeProhibited
  deriving DecidableEq, Repr

/-- A wallet index unused by every wallet of `ws`: one past the largest
index in use (`0` on a card without wallets, matching the spec's concrete
scenario). -/
def freshIndex (ws : List Wallet) : Nat :=
  ws.foldr (fun w acc => max (w.index + 1) acc) 0

/-- The wallet record `createWallet` produces: the requested curve and
permanence, the card-generated key `newKey`, and a per-card fresh index. -/
def newWalletOf (c : Card) (curve : EllipticCurve) (isPermanent : Bool)
    (newKey : Data) : Wallet :=
  { publicKey := newKey, chainCode := none, curve := curve,
    settings := { isPermanent := isPermanent },
    totalSignedHashes := none, remainingSignatures := none,
    index := freshIndex c.walletsList }

/-- Modelled from the spec: `createWallet` behaviour, absent from the
repository (only its signature is declared).  "createWallet is rejected if
the requested curve is absent from supportedCurves or the card's wallet
slot count is exhausted"; on success the new wallet's `index` is "stable,
unique per card, assigned at creation".  `newKey` stands for the public
key the card generates.  The result carries the card state a subsequent
`scanCard` would observe, together with the `CreateWalletResponse`. -/
def createWalletModel (c : Card) (curve : EllipticCurve) (isPermanent : Bool)
    (newKey : Data) : Except SdkError (Card × CreateWalletResponse) :=
  if curve ∈ c.supportedCurvesList then
    if c.walletsList.length < c.settings.maxWalletsCount then
      Except.ok
        ({ c with wallets := some (c.walletsList ++ [newWalletOf c curve isPermanent newKey]) },
         { cardId := c.cardId, wallet := newWalletOf c curve isPermanent newKey })
    else Except.error SdkError.walletSlotsExhausted
  else Except.error SdkError.curveNotSupported

/-- Modelled from the spec: `purgeWallet` behaviour, absent from the
repository.  "purgeWallet is rejected if the wallet's isPermanent setting
is true; otherwise the wallet is absent from a subsequent scanCard
result". -/
def purgeWalletModel (c : Card) (walletPublicKey : Data) :
    Except SdkError (Card × SuccessResponse) :=
  match c.walletsList.find? (fun w => w.publicKey == walletPublicKey) with
  | none => Except.error SdkError.walletNotFound
  | some w =>
    if w.settings.isPermanent then Except.error SdkError.purgeProhibited
    else
      Except.ok
        ({ c with wallets := some (c.walletsList.filter (fun w2 => w2.publicKey != walletPublicKey)) },
         { cardId := c.cardId })

/-- Card-state transitions produced by the modelled mutating operations. -/
inductive CardStep : Card → Card → Prop where
  | create (c c2 : Card) (curve : EllipticCurve) (isPermanent : Bool)
      (newKey : Data) (r : CreateWalletResponse)
      (h : createWalletModel c curve isPermanent newKey = Except.ok (c2, r)) :
      CardStep c c2
  | purge (c c2 : Card) (walletPublicKey : Data) (r : SuccessResponse)
      (h : purgeWalletModel c walletPublicKey = Except.ok (c2, r)) :
      CardStep c c2

/-- The spec's card invariant: every wallet on the card uses a curve drawn
from `supportedCurves`. -/
def curveInvariant (c : Card) : Prop :=
  ∀ w ∈ c.walletsList, w.curve ∈ c.supportedCurvesList

instance (c : Card) : Decidable (curveInvariant c) := by
  unfold curveInvariant; infer_instance

/-- Modelled from the spec: the `sign` behaviour, absent from the
repository.  "Takes an ordered sequence of hash blobs ...; returns one
signature per input hash, order-preserving."  `sigOf` stands for the
card's signing primitive. -/
def signModel (sigOf : Data → Data) (hashes : List Data) : List Data :=
  hashes.map sigOf

/-- A file as stored on the card: the `File` record together with its
per-index `FileSettings` (the settings live on the card; they are the
target of `changeFilesSettings` and are not part of the `File` record). -/
structure StoredFile where
  file : File
  settings : FileSettings
  deriving DecidableEq, Repr

/-- Modelled from the spec: the `readFiles` behaviour, absent from the
repository.  "readFiles with readPrivateFiles=false must exclude files
whose settings are Private." -/
def readFilesModel (store : List StoredFile) (readPrivateFiles : Bool) :
    List StoredFile :=
  if readPrivateFiles then store
  else store.filter (fun e => e.settings != FileSettings.Private)

/-- The `ReadFilesResponse` the modelled `readFiles` produces. -/
def readFilesResponseOf (store : List StoredFile) (readPrivateFiles : Bool) :
    ReadFilesResponse :=
  { files := (readFilesModel store readPrivateFiles).map StoredFile.file }

/-!
Concrete sample values, used by the witness theorems.  They realize the
spec's concrete scenario: a card with `supportedCurves = [Secp256k1]` and
zero wallets.
-/

/-- A concrete firmware version. -/
def sampleFirmware : FirmwareVersion :=
  { hotFix := 0, major := 4, minor := 12, type := FirmwareType.Release,
    version := "4.12r" }

/-- A concrete settings record with three wallet slots. -/
def sampleSettings : Settings :=
  { securityDelay := 1500, maxWalletsCount := 3,
    isSettingAccessCodeAllowed := true, isSettingPasscodeAllowed := true,
    isRemovingAccessCodeAllowed := true, isLinkedTerminalEnabled := true,
    supportedEncryptionModes := ⟨EncryptionMode.Strong⟩,
    isPermanentWallet := false,
    isOverwritingIssuerExtraDataRestricted := false,
    defaultSigningMethods := some SigningMethod.SignHash,
    defaultCurve := some EllipticCurve.Secp256k1,
    isIssuerDataProtectedAgainstReplay := true,
    isSelectBlockchainAllowed := false }

/-- The spec scenario card: `supportedCurves = [Secp256k1]`, zero wallets. -/
def sampleCard : Card :=
  { cardId := "CB01000000000000", batchId := "0001",
    cardPublicKey := "02cafe", firmwareVersion := sampleFirmware,
    manufacturer := { name := "TANGEM", manufactureDate := ⟨0⟩, signature := none },
    issuer := { name := "TANGEM SDK", publicKey := "03beef" },
    settings := sampleSettings,
    linkedTerminalStatus := LinkedTerminalStatus.None,
    isPasscodeSet := some false,
    supportedCurves := ⟨EllipticCurve.Secp256k1⟩,
    wallets := some [], attestation :=
      { cardKeyAttestation := Status.Verified,
        walletKeysAttestation := Status.Verified,
        firmwareAttestation := Status.Skipped,
        cardUniquenessAttestation := Status.Skipped },
    health := none, remainingSignatures := none }

/-- The wallet `createWalletModel` makes on `sampleCard` (index 0, as in
the spec's concrete scenario). -/
def sampleWallet : Wallet :=
  { publicKey := "02abcd", chainCode := none,
    curve := EllipticCurve.Secp256k1, settings := { isPermanent := false },
    totalSignedHashes := none, remainingSignatures := none, index := 0 }

/-- `sampleCard` after the modelled `createWallet` succeeds. -/
def sampleCard2 : Card := { sampleCard with wallets := some [sampleWallet] }

/-- A concrete public file entry. -/
def samplePublicFile : StoredFile :=
  { file := { data := "00ff", startingSignature := none,
              finalizingSignature := none, counter := none,
              issuerPublicKey := none, requiredPasscode := none,
              minFirmwareVersion := none, maxFirmwareVersion := none },
    settings := FileSettings.Public }

/-- A concrete private file entry. -/
def samplePrivateFile : StoredFile :=
  { file := { data := "aa55", startingSignature := none,
              finalizingSignature := none, counter := none,
              issuerPublicKey := none, requiredPasscode := some true,
              minFirmwareVersion := none, maxFirmwareVersion := none },
    settings := FileSettings.Private }

/-- The methods whose declared `cardId` parameter is required (no `?`). -/
def cardIdRequiredOps : List SdkOp :=
  [SdkOp.sign, SdkOp.createWallet, SdkOp.purgeWallet,
   SdkOp.setAccessCode, SdkOp.setPasscode]

/-!
Helper lemmas.
-/

/-- `freshIndex` is strictly larger than every index in use. -/
theorem freshIndex_lt (ws : List Wallet) : ∀ w ∈ ws, w.index < freshIndex ws := by
  induction ws with
  | nil => intro w hw; cases hw
  | cons a t ih =>
    intro w hw
    have hfi : freshIndex (a :: t) = max (a.index + 1) (freshIndex t) := rfl
    rcases List.mem_cons.mp hw with h | h
    · subst h
      rw [hfi]
      exact lt_of_lt_of_le (Nat.lt_succ_self _) (le_max_left _ _)
    · rw [hfi]
      exact lt_of_lt_of_le (ih w h) (le_max_right _ _)

/-!
Claim theorems.
-/

/-- Claim C1, counterexample: the claim "every asynchronous operation's
declared response record always includes `cardId`" fails on the source:
`readFiles` resolves to `ReadFilesResponse`, whose only field is `files`,
and `getNFCStatus` resolves to `NFCStatusResponse`, whose fields are
`enabled` and `support`; neither record declares `cardId`. -/
theorem C1_counterexample :
    (recordHasCardId SdkOp.readFiles = false
      ∧ responseRecord SdkOp.readFiles ≠ none)
    ∧ (recordHasCardId SdkOp.getNFCStatus = false
      ∧ responseRecord SdkOp.getNFCStatus ≠ none) := by
  decide

/-- Claim C1, amended: every `TangemSdk` method other than `readFiles` and
`getNFCStatus` whose declared asynchronous result is a response record
includes a `cardId` field in that record. -/
theorem C1_cardId_in_response_records :
    ∀ op : SdkOp, op ≠ SdkOp.readFiles → op ≠ SdkOp.getNFCStatus →
      recordHasCardId op = true := by
  intro op h1 h2
  cases op <;> first | rfl | exact absurd rfl h1 | exact absurd rfl h2

/-- Claim C1, witness: `createWallet`'s response record declares `cardId`. -/
theorem C1_cardId_witness : recordHasCardId SdkOp.createWallet = true :=
  C1_cardId_in_response_records SdkOp.createWallet (by decide) (by decide)

/-- Claim C2 (code bug): the spec requires `sign` to return one signature
per input hash, order-preserving (the modelled behaviour `signModel` does
exactly that, two signatures for two hashes), but the declared result type
of `sign` is `Promise<[Data]>`, a one-element tuple, which holds exactly
one signature whatever the number of input hashes. -/
theorem C2_sign_declared_arity :
    opReturn SdkOp.sign = TSReturn.promise (TSType.tuple1 TSType.data)
    ∧ (∀ r : Tuple1 Data, r.toList.length = 1)
    ∧ (∀ sigOf : Data → Data, (signModel sigOf ["68ab", "07cd"]).length = 2) :=
  ⟨rfl, fun _ => rfl, fun _ => rfl⟩

/-- Claim C3, counterexample: no parameter of `createWallet` has type
`WalletConfig`; the record is declared but never passed to the
wallet-creation operation. -/
theorem C3_counterexample :
    (opParams SdkOp.createWallet).all
      (fun p => decide (p.ty ≠ TSType.named "WalletConfig")) = true := by
  decide

/-- Claim C3, amended: `WalletConfig` (`isReusable`, `prohibitPurgeWallet`,
curve, signing methods) is declared but not passed into `createWallet` —
nor into any other method; `createWallet` instead receives `curve` and
`isPermanent` directly (plus required `cardId` and optional
`initialMessage`). -/
theorem C3_createWallet_params :
    opParams SdkOp.createWallet =
      [⟨"curve", TSType.named "EllipticCurve", false⟩,
       ⟨"isPermanent", TSType.bool, false⟩,
       ⟨"cardId", TSType.str, false⟩,
       ⟨"initialMessage", TSType.named "Message", true⟩]
    ∧ interfaceFields "WalletConfig" =
        some [⟨"isReusable", TSType.bool, true⟩,
              ⟨"prohibitPurgeWallet", TSType.bool, true⟩,
              ⟨"EllipticCurve", TSType.named "EllipticCurve", true⟩,
              ⟨"signingMethods", TSType.named "SigningMethod", true⟩]
    ∧ (∀ op : SdkOp, (opParams op).all
        (fun p => decide (p.ty ≠ TSType.named "WalletConfig")) = true) := by
  refine ⟨rfl, by decide, ?_⟩
  intro op
  cases op <;> decide

/-- Claim C4 (spec-modelled): `createWalletModel` succeeds exactly when
the requested curve is among the card's supported curves and a wallet
slot remains, and on success the returned wallet's index is unused by
every previously existing wallet of the card. -/
theorem C4_createWallet_spec (c : Card) (cv : EllipticCurve) (perm : Bool)
    (key : Data) :
    ((∃ x, createWalletModel c cv perm key = Except.ok x) ↔
      (cv ∈ c.supportedCurvesList
        ∧ c.walletsList.length < c.settings.maxWalletsCount))
    ∧ (∀ c2 r, createWalletModel c cv perm key = Except.ok (c2, r) →
        ∀ w ∈ c.walletsList, w.index ≠ r.wallet.index) := by
  constructor
  · constructor
    · rintro ⟨x, hx⟩
      unfold createWalletModel at hx
      by_cases h1 : cv ∈ c.supportedCurvesList
      · by_cases h2 : c.walletsList.length < c.settings.maxWalletsCount
        · exact ⟨h1, h2⟩
        · rw [if_pos h1, if_neg h2] at hx; cases hx
      · rw [if_neg h1] at hx; cases hx
    · rintro ⟨h1, h2⟩
      exact ⟨_, by unfold createWalletModel; rw [if_pos h1, if_pos h2]⟩
  · intro c2 r hr w hw
    unfold createWalletModel at hr
    by_cases h1 : cv ∈ c.supportedCurvesList
    · by_cases h2 : c.walletsList.length < c.settings.maxWalletsCount
      · rw [if_pos h1, if_pos h2] at hr
        injection hr with h
        injection h with hc hresp
        subst hresp
        exact Nat.ne_of_lt (freshIndex_lt c.walletsList w hw)
      · rw [if_pos h1, if_neg h2] at hr; cases hr
    · rw [if_neg h1] at hr; cases hr

/-- Claim C4, witness: on the spec's scenario card (`supportedCurves =
[Secp256k1]`, zero wallets, three slots) the modelled `createWallet`
succeeds for `Secp256k1`. -/
theorem C4_createWallet_witness :
    ∃ x, createWalletModel sampleCard EllipticCurve.Secp256k1 false "02abcd" =
      Except.ok x :=
  (C4_createWallet_spec sampleCard EllipticCurve.Secp256k1 false "02abcd").1.mpr
    (by decide)

/-- Claim C5 (spec-modelled): the curve invariant — every wallet on the
card uses a curve drawn from `supportedCurves` — is preserved by every
modelled card-state transition (`createWallet`, `purgeWallet`). -/
theorem C5_curve_invariant_preserved (c c2 : Card)
    (hinv : curveInvariant c) (hstep : CardStep c c2) : curveInvariant c2 := by
  rcases hstep with ⟨cv, perm, key, r, h⟩ | ⟨pk, r, h⟩
  · unfold createWalletModel at h
    by_cases h1 : cv ∈ c.supportedCurvesList
    · by_cases h2 : c.walletsList.length < c.settings.maxWalletsCount
      · rw [if_pos h1, if_pos h2] at h
        injection h with h'
        injection h' with hc hresp
        subst hc
        intro w hw
        have hw2 : w ∈ c.walletsList ++ [newWalletOf c cv perm key] := hw
        rcases List.mem_append.mp hw2 with hmem | hmem
        · exact hinv w hmem
        · have : w = newWalletOf c cv perm key := List.mem_singleton.mp hmem
          subst this
          exact h1
      · rw [if_pos h1, if_neg h2] at h; cases h
    · rw [if_neg h1] at h; cases h
  · unfold purgeWalletModel at h
    cases hfind : (Card.walletsList c).find? (fun w => w.publicKey == pk) with
    | none => rw [hfind] at h; cases h
    | some w0 =>
      rw [hfind] at h
      dsimp only at h
      by_cases hperm : w0.settings.isPermanent
      · rw [if_pos hperm] at h; cases h
      · rw [if_neg hperm] at h
        injection h with h'
        injection h' with hc hresp
        subst hc
        intro w hw
        have hw2 : w ∈ c.walletsList.filter (fun w2 => w2.publicKey != pk) := hw
        exact hinv w (List.mem_of_mem_filter hw2)

/-- Claim C5, witness: the invariant holds on the card obtained from the
scenario card by the modelled `createWallet` transition. -/
theorem C5_curve_invariant_witness : curveInvariant sampleCard2 :=
  C5_curve_invariant_preserved sampleCard sampleCard2 (by decide)
    (CardStep.create sampleCard sampleCard2 EllipticCurve.Secp256k1 false "02abcd"
      { cardId := "CB01000000000000", wallet := sampleWallet } rfl)

/-- Claim C6, counterexample: `createWallet` declares `cardId` as a
required (non-optional) parameter, so `cardId` is not optional for every
operation. -/
theorem C6_counterexample :
    (opParams SdkOp.createWallet).any
      (fun p => p.name == "cardId" && !p.optional) = true := by
  decide

/-- Claim C6, amended: the declared `cardId` parameter is optional for
every method that has one, except `sign`, `createWallet`, `purgeWallet`,
`setAccessCode` and `setPasscode`, where it is required. -/
theorem C6_cardId_optionality :
    ∀ op : SdkOp, ∀ p ∈ opParams op, p.name = "cardId" →
      (p.optional = true ↔ op ∉ cardIdRequiredOps) := by
  intro op
  cases op <;> decide

/-- Claim C6, witness: `readIssuerData`'s `cardId` parameter is optional,
and `readIssuerData` is not among the operations requiring `cardId`. -/
theorem C6_cardId_optionality_witness :
    ((⟨"cardId", TSType.str, true⟩ : TSField).optional = true ↔
      SdkOp.readIssuerData ∉ cardIdRequiredOps) :=
  C6_cardId_optionality SdkOp.readIssuerData ⟨"cardId", TSType.str, true⟩
    (by decide) rfl

/-- Claim C7, counterexample: `getNFCStatus` is declared to return
`Promise<NFCStatusResponse>` — an asynchronous result, not a synchronous
snapshot. -/
theorem C7_counterexample :
    (opReturn SdkOp.getNFCStatus).isPromise = true := rfl

/-- Claim C7, amended: `getNFCStatus` returns an asynchronous
(`Promise`-wrapped) snapshot containing the `enabled` and `support` flags
of the NFC radio. -/
theorem C7_getNFCStatus_async_snapshot :
    opReturn SdkOp.getNFCStatus =
      TSReturn.promise (TSType.named "NFCStatusResponse")
    ∧ interfaceFields "NFCStatusResponse" =
        some [⟨"enabled", TSType.bool, false⟩, ⟨"support", TSType.bool, false⟩] :=
  ⟨rfl, by decide⟩

/-- Claim C8 (spec-modelled): every file entry returned by the modelled
`readFiles` with `readPrivateFiles = false` has settings different from
`Private`. -/
theorem C8_readFiles_excludes_private :
    ∀ (store : List StoredFile) (e : StoredFile),
      e ∈ readFilesModel store false → e.settings ≠ FileSettings.Private := by
  intro store e he
  simp only [readFilesModel, Bool.false_eq_true, if_false, List.mem_filter,
    bne_iff_ne, ne_eq] at he
  exact he.2

/-- Claim C8, witness: with one public and one private file stored, the
public entry is returned and its settings are not `Private`. -/
theorem C8_readFiles_witness :
    samplePublicFile.settings ≠ FileSettings.Private :=
  C8_readFiles_excludes_private [samplePublicFile, samplePrivateFile]
    samplePublicFile (by decide)

/-- Claim C9: `Card.supportedCurves` and
`Settings.supportedEncryptionModes` are declared as one-element tuple
types (`[EllipticCurve]`, `[EncryptionMode]`), and accordingly every
well-typed `Card` has exactly one supported curve and every well-typed
`Settings` exactly one supported encryption mode. -/
theorem C9_one_element_tuples :
    fieldOf "Card" "supportedCurves" =
        some ⟨"supportedCurves", TSType.tuple1 (TSType.named "EllipticCurve"), false⟩
    ∧ fieldOf "Settings" "supportedEncryptionModes" =
        some ⟨"supportedEncryptionModes",
              TSType.tuple1 (TSType.named "EncryptionMode"), false⟩
    ∧ (∀ c : Card, c.supportedCurves.toList.length = 1)
    ∧ (∀ s : Settings, s.supportedEncryptionModes.toList.length = 1) :=
  ⟨by decide, by decide, fun _ => rfl, fun _ => rfl⟩

/-- Claim C10: `changeFilesSettings` accepts exactly one
`FileSettingsChange` record — the `changes` parameter is the named record
type, not an array — and that record holds one `fileIndex` with one target
`FileSettings` value. -/
theorem C10_changeFilesSettings_single_change :
    opParams SdkOp.changeFilesSettings =
      [⟨"changes", TSType.named "FileSettingsChange", false⟩,
       ⟨"cardId", TSType.str, true⟩,
       ⟨"initialMessage", TSType.named "Message", true⟩]
    ∧ (TSType.named "FileSettingsChange").isArr = false
    ∧ interfaceFields "FileSettingsChange" =
        some [⟨"fileIndex", TSType.num, false⟩,
              ⟨"settings", TSType.named "FileSettings", false⟩] :=
  ⟨rfl, rfl, by decide⟩

end Tangem
